import Mathlib

/-!
Shallow embedding of `src/__init__.py` of the "Minimize to Tray 2" Anki
add-on (class `AnkiSystemTray` and the module-level `minimizeToTrayInit`).

Qt/Anki host objects are modelled explicitly:
  * a top-level widget (`Window`) carries the attributes the add-on reads or
    writes: `isWindow()`, `isHidden()`, its minimized window state, whether
    `children()` is non-empty, and whether `sip.isdeleted` holds;
  * `QApplication.topLevelWidgets()` is the `windows` list of the state;
  * the scheduler's `deck_due_tree().children` is the `deckChildren` list;
  * the pixmap actually painted on the tray icon is `TrayIconImage`: whether
    a badge was drawn, its text, the font size used, and (ghost field) the
    review count the paint call received;
  * `sys.platform` is a string field of the state.

Window objects are identified by `wid`; the Python code mutates window
objects in place, which we model by updating the entry with the matching
`wid` in the global window list (faithful whenever ids are distinct, which
the theorems assume where it matters).
-/

/-- A Python value as found in the add-on's configuration dict. -/
inductive PyValue where
  | pyBool (b : Bool)
  | pyInt (n : Int)
deriving DecidableEq, Repr

/-- Python truthiness of a configuration value (used by
`if config["hide_on_startup"]:`). -/
def pyTruthy : PyValue → Bool
  | .pyBool b => b
  | .pyInt n => n != 0

/-- Python `v == False` (note `0 == False` is `True` in Python, used by
`config["show_due"] == False`, line 27). -/
def pyEqFalse : PyValue → Bool
  | .pyBool b => !b
  | .pyInt n => n == 0

/-- Python `s.startswith(pre)`, on the underlying character sequences
(kernel-executable, unlike `String.startsWith`). -/
def pyStartsWith (s pre : String) : Bool :=
  pre.toList.isPrefixOf s.toList

/-- Dict lookup: `config[k]` / `k in config`. -/
def configGet (cfg : List (String × PyValue)) (k : String) : Option PyValue :=
  (cfg.find? fun p => p.1 == k).map fun p => p.2

/-- A top-level widget as seen by the add-on. `minimized` stands for
`windowState() == Qt.WindowState.WindowMinimized` (equivalently, under the
integer-valued Qt enum bindings, `isMinimized() == Qt.WindowState.WindowMinimized`,
line 125). -/
structure Window where
  wid : Nat
  isWindow : Bool
  hidden : Bool
  minimized : Bool
  hasChildren : Bool
  deleted : Bool
deriving DecidableEq, Repr

/-- A child of the scheduler's deck due tree (fields read at lines 207-210). -/
structure DeckNode where
  new_count : Nat
  learn_count : Nat
  review_count : Nat
deriving DecidableEq, Repr

/-- What is painted on the tray icon by `_setSystemTrayIcon` /
`_createReviewsIcon`: `badge = some s` when the rounded-rectangle badge with
text `s` was drawn over the base icon, `none` when only the base icon is set.
`paintedCount` is a ghost field recording the `numberOfReviews` argument the
paint call received. -/
structure TrayIconImage where
  badge : Option String
  fontSize : PyValue
  paintedCount : Nat
deriving DecidableEq, Repr

/-- The mutable state of `AnkiSystemTray` together with the host environment
it reads (window list, scheduler tree, `sys.platform`) and the attributes it
stores on `mw` (`closeEventFromAction`). -/
structure TrayState where
  platform : String
  windows : List Window
  deckChildren : List DeckNode
  isAnkiFocused : Bool
  isMinimizedToTray : Bool
  explicitlyHiddenWindows : List Nat
  showDueAmount : Bool
  dueFontSize : PyValue
  displayedNumberOfCardsDue : Nat
  closeEventFromAction : Bool
  trayIconImage : TrayIconImage
deriving DecidableEq, Repr

/-- Whether `_visibleWindows` (lines 140-151) keeps this widget:
`w.isWindow() and not w.isHidden()` and `w.children()` non-empty. -/
def Window.visibleTopLevel (w : Window) : Bool :=
  w.isWindow && !w.hidden && w.hasChildren

/-- `AnkiSystemTray._visibleWindows` (lines 140-151): the visible top-level
widgets, skipping those with no children. -/
def visibleWindows (ws : List Window) : List Window :=
  ws.filter fun w => w.visibleTopLevel

/-- The ids of a list of windows. -/
def wids (ws : List Window) : List Nat :=
  ws.map fun w => w.wid

/-- `AnkiSystemTray._anyWindowMinimized` (lines 153-157). -/
def anyWindowMinimized (s : TrayState) : Bool :=
  (visibleWindows s.windows).any fun w => w.minimized

/-- Effect of one iteration of `_showWindows` (lines 121-138) on the window
it touches: deleted windows are skipped; a minimized window gets
`showNormal()`; otherwise `hide()` then `show()` (net effect: shown, window
state kept); the final `raise_()` changes none of the modelled fields. -/
def showWindowStep (w : Window) : Window :=
  if w.deleted then w
  else if w.minimized then { w with hidden := false, minimized := false }
  else { w with hidden := false }

/-- `AnkiSystemTray._showWindows(windows)` (lines 121-138), acting on the
global widget list: the windows whose ids are in `targets` are mutated by
`showWindowStep`. -/
def showWindows (targets : List Nat) (ws : List Window) : List Window :=
  ws.map fun w => if w.wid ∈ targets then showWindowStep w else w

/-- `AnkiSystemTray.hideAll` (lines 94-99): snapshot `_visibleWindows()`,
hide each of the snapshotted windows, set `isMinimizedToTray`. -/
def hideAll (s : TrayState) : TrayState :=
  let snapshot := wids (visibleWindows s.windows)
  { s with
    explicitlyHiddenWindows := snapshot
    windows := s.windows.map fun w =>
      if w.wid ∈ snapshot then { w with hidden := true } else w
    isMinimizedToTray := true }

/-- `AnkiSystemTray.showAll` (lines 83-92): restore the explicitly hidden
snapshot when minimized to tray, else the currently visible windows; clear
`isMinimizedToTray`. The `raise_()`/`activateWindow()` calls on
`lastFocusedWidget` (guarded by `sip.isdeleted`) change none of the modelled
window fields and are not represented. -/
def showAll (s : TrayState) : TrayState :=
  let targets :=
    if s.isMinimizedToTray then s.explicitlyHiddenWindows
    else wids (visibleWindows s.windows)
  { s with
    windows := showWindows targets s.windows
    isMinimizedToTray := false }

/-- `QSystemTrayIcon.ActivationReason`. -/
inductive ActivationReason where
  | Unknown
  | Context
  | DoubleClick
  | Trigger
  | MiddleClick
deriving DecidableEq, Repr

/-- `AnkiSystemTray.onActivated(reason)` (lines 50-71). -/
def onActivated (s : TrayState) (reason : ActivationReason) : TrayState :=
  if reason = ActivationReason.Trigger then
    if !s.isAnkiFocused || anyWindowMinimized s || s.isMinimizedToTray then
      showAll s
    else if !(pyStartsWith s.platform "win32") then
      hideAll s
    else s
  else s

/-- `AnkiSystemTray._getAmountOfCardsDue` (lines 195-212). -/
def getAmountOfCardsDue (s : TrayState) : Nat :=
  if !s.showDueAmount then 0
  else
    s.deckChildren.foldl
      (fun total child => total + child.new_count + child.learn_count + child.review_count)
      0

/-- `AnkiSystemTray._formatNumber` (lines 214-222). The final literal of the
source file is the bytes C3 A2 CB 86 C5 BE, i.e. the three characters
U+00E2 U+02C6 U+017E ("a-circumflex, modifier circumflex, z-caron": the
UTF-8 encoding of the infinity sign misdecoded as cp1252), not U+221E. -/
def formatNumber (number : Nat) : String :=
  let numberString := toString number
  if number < 1000 then toString number
  else if 1000 ≤ number ∧ number < 10000 then
    String.mk [numberString.toList.get! 0] ++ "." ++ String.mk [numberString.toList.get! 1] ++ "k"
  else "âˆž"

/-- `AnkiSystemTray._getCardsDueDisplayNumber` (lines 224-225). -/
def getCardsDueDisplayNumber (amount : Nat) : String :=
  formatNumber amount

/-- `AnkiSystemTray._setSystemTrayIcon` (lines 227-232) composed with
`_createReviewsIcon` (lines 159-193): the badge is drawn exactly when
`numberOfReviews > 0 and self.showDueAmount`. -/
def setSystemTrayIcon (showDue : Bool) (fontSize : PyValue) (numberOfReviews : Nat) :
    TrayIconImage :=
  let displayNumber := getCardsDueDisplayNumber numberOfReviews
  let shouldShowNumber := decide (numberOfReviews > 0) && showDue
  { badge := if shouldShowNumber then some displayNumber else none
    fontSize := fontSize
    paintedCount := numberOfReviews }

/-- `AnkiSystemTray.updateSystemTrayIcon(force)` (lines 101-111). -/
def updateSystemTrayIcon (s : TrayState) (force : Bool) : TrayState :=
  let numberOfCardsDue := getAmountOfCardsDue s
  let didDueCardCountChange := numberOfCardsDue != s.displayedNumberOfCardsDue
  let shouldUpdate := s.showDueAmount && didDueCardCountChange
  if shouldUpdate || force then
    { s with
      displayedNumberOfCardsDue := numberOfCardsDue
      trayIconImage := setSystemTrayIcon s.showDueAmount s.dueFontSize numberOfCardsDue }
  else s

/-- `AnkiSystemTray._createSystemTrayIcon` (lines 234-246): paints the icon
with the freshly queried count but does NOT assign
`_displayedNumberOfCardsDue` (which keeps its class-level default 0). The
context-menu and signal wiring is not part of the modelled state. -/
def createSystemTrayIcon (s : TrayState) : TrayState :=
  let numberOfReviews := getAmountOfCardsDue s
  { s with
    trayIconImage := setSystemTrayIcon s.showDueAmount s.dueFontSize numberOfReviews }

/-- Outcome of the wrapped `closeEvent` (lines 257-270): either the original
`AnkiQt.closeEvent` runs (the application quits), or all windows are hidden
and the event is ignored. -/
inductive CloseOutcome where
  | delegated
  | hiddenAndIgnored
deriving DecidableEq, Repr

/-- The replacement `closeEvent` installed on `mw` (lines 257-270). -/
def mwCloseEvent (s : TrayState) : TrayState × CloseOutcome :=
  if s.closeEventFromAction then (s, CloseOutcome.delegated)
  else (hideAll s, CloseOutcome.hiddenAndIgnored)

/-- `AnkiSystemTray.onExit` (lines 79-81): set `closeEventFromAction`, then
`mw.close()`, which delivers a close event to the wrapped handler. -/
def onExit (s : TrayState) : TrayState × CloseOutcome :=
  mwCloseEvent { s with closeEventFromAction := true }

/-- Where a close event delivered to the main window came from. -/
inductive CloseSource where
  | fromExitAction
  | fromXButton
deriving DecidableEq, Repr

/-- Delivery of one close event: the exit action goes through `onExit`, the
title-bar X button delivers the close event directly. -/
def deliverClose (s : TrayState) : CloseSource → TrayState × CloseOutcome
  | CloseSource.fromExitAction => onExit s
  | CloseSource.fromXButton => mwCloseEvent s

/-- Run a sequence of close events; the application terminates (result
`true`) at the first close whose outcome is delegated to the original
`AnkiQt.closeEvent`, and later events are then never delivered. -/
def runCloses (s : TrayState) : List CloseSource → Bool
  | [] => false
  | src :: rest =>
    match deliverClose s src with
    | (_, CloseOutcome.delegated) => true
    | (s', CloseOutcome.hiddenAndIgnored) => runCloses s' rest

/-- `AnkiSystemTray.__init__` (lines 20-45). Reads the configuration with
fallback to the class-level defaults `showDueAmount = True` (line 48) and
`dueFontSize = 16` (line 47); builds the tray icon; `_configureMw` sets
`mw.closeEventFromAction = False`; finally evaluates
`config["hide_on_startup"]`, which raises `KeyError` when the key is absent
(line 43 subscripts the dict without a guard). -/
def ankiSystemTrayInit (platform : String) (cfg : List (String × PyValue))
    (windows : List Window) (deck : List DeckNode) : Except String TrayState :=
  let showDueAmount :=
    match configGet cfg "show_due" with
    | some v => !(pyEqFalse v)
    | none => true
  let dueFontSize :=
    match configGet cfg "due_font_size" with
    | some v => v
    | none => PyValue.pyInt 16
  let s0 : TrayState :=
    { platform := platform
      windows := windows
      deckChildren := deck
      isAnkiFocused := true
      isMinimizedToTray := false
      explicitlyHiddenWindows := []
      showDueAmount := showDueAmount
      dueFontSize := dueFontSize
      displayedNumberOfCardsDue := 0
      closeEventFromAction := false
      trayIconImage := { badge := none, fontSize := dueFontSize, paintedCount := 0 } }
  let s1 := createSystemTrayIcon s0
  match configGet cfg "hide_on_startup" with
  | none => Except.error "KeyError: hide_on_startup"
  | some v => Except.ok (if pyTruthy v then hideAll s1 else s1)

/-- State of the module-level init guard (lines 273-279): whether `mw` has a
`trayIcon` attribute (checked by `hasattr`), and a ghost count of how many
`AnkiSystemTray` coordinators have been constructed. -/
structure MainWindowEnv where
  hasTrayIconAttr : Bool
  coordinatorsConstructed : Nat
deriving DecidableEq, Repr

/-- `minimizeToTrayInit` (lines 273-276): returns early when
`hasattr(mw, "trayIcon")`; otherwise constructs an `AnkiSystemTray` and
assigns it to `mw.systemTray`. The construction assigns `mw.systemTray`,
`mw.closeEventFromAction` and `mw.closeEvent`, but never `mw.trayIcon`
(`self.trayIcon` on line 37 is an attribute of the coordinator, not of
`mw`), so `hasTrayIconAttr` is unchanged. -/
def minimizeToTrayInit (m : MainWindowEnv) : MainWindowEnv :=
  if m.hasTrayIconAttr then m
  else { m with coordinatorsConstructed := m.coordinatorsConstructed + 1 }

/-- A baseline state used to instantiate theorems with hypotheses. -/
def baseState : TrayState :=
  { platform := "linux"
    windows := []
    deckChildren := []
    isAnkiFocused := true
    isMinimizedToTray := false
    explicitlyHiddenWindows := []
    showDueAmount := true
    dueFontSize := PyValue.pyInt 16
    displayedNumberOfCardsDue := 0
    closeEventFromAction := false
    trayIconImage := { badge := none, fontSize := PyValue.pyInt 16, paintedCount := 0 } }

/-- Example windows shared by the concrete instantiations below: `w1` is
visible and minimized, `w2` is hidden, `w3` is visible but has no child
widgets (a toolkit-internal artifact). -/
def w1 : Window :=
  { wid := 1, isWindow := true, hidden := false, minimized := true
    hasChildren := true, deleted := false }

def w2 : Window :=
  { wid := 2, isWindow := true, hidden := true, minimized := false
    hasChildren := true, deleted := false }

def w3 : Window :=
  { wid := 3, isWindow := true, hidden := false, minimized := false
    hasChildren := false, deleted := false }

/-- C4: the badge-formatting function returns `str(n)` below 1000 and the
two-leading-digits "d.dk" form between 1000 and 9999, as claimed; but at
10000 and above it returns the literal three-character string
U+00E2 U+02C6 U+017E that actually stands in the source file (the UTF-8
bytes of the infinity sign, double-encoded through cp1252), which is not
the single-character infinity glyph the claim states. -/
theorem formatNumber_eval_and_mojibake :
    formatNumber 7 = "7" ∧ formatNumber 999 = "999" ∧
    formatNumber 1000 = "1.0k" ∧ formatNumber 1234 = "1.2k" ∧
    formatNumber 9999 = "9.9k" ∧
    formatNumber 10000 = "âˆž" ∧ formatNumber 15000 = "âˆž" ∧
    ("âˆž" : String) ≠ "∞" ∧ ("âˆž" : String).length = 3 := by decide

/-- C9: the construction guard of `minimizeToTrayInit` is ineffective: it
tests `hasattr(mw, "trayIcon")`, an attribute that constructing the
coordinator never sets (the constructor assigns `mw.systemTray`), so a
second firing of the `main_window_did_init` hook constructs a second
coordinator instead of being a no-op. -/
theorem minimizeToTrayInit_guard_ineffective :
    minimizeToTrayInit (minimizeToTrayInit
        { hasTrayIconAttr := false, coordinatorsConstructed := 0 }) =
      { hasTrayIconAttr := false, coordinatorsConstructed := 2 } := by decide

/-- C5: `updateSystemTrayIcon False` is a complete no-op when the queried
due-count equals the last stored count and due-count display is enabled,
while `updateSystemTrayIcon True` always repaints the tray icon with the
freshly queried count and stores that count. -/
theorem updateTrayIcon_redraw_policy (s : TrayState)
    (hshow : s.showDueAmount = true)
    (heq : getAmountOfCardsDue s = s.displayedNumberOfCardsDue) :
    updateSystemTrayIcon s false = s ∧
    ∀ t : TrayState,
      (updateSystemTrayIcon t true).trayIconImage =
        setSystemTrayIcon t.showDueAmount t.dueFontSize (getAmountOfCardsDue t) ∧
      (updateSystemTrayIcon t true).displayedNumberOfCardsDue = getAmountOfCardsDue t := by
  have hnoop : updateSystemTrayIcon s false = s := by
    simp [updateSystemTrayIcon, heq, hshow]
  refine ⟨hnoop, fun t => ⟨?_, ?_⟩⟩ <;>
    simp [updateSystemTrayIcon]

/-- C5 witness: the policy instantiated at the baseline state (empty deck
tree, so the queried count 0 equals the stored count 0). -/
theorem updateTrayIcon_redraw_policy_witness :
    updateSystemTrayIcon baseState false = baseState ∧
    ∀ t : TrayState,
      (updateSystemTrayIcon t true).trayIconImage =
        setSystemTrayIcon t.showDueAmount t.dueFontSize (getAmountOfCardsDue t) ∧
      (updateSystemTrayIcon t true).displayedNumberOfCardsDue = getAmountOfCardsDue t :=
  updateTrayIcon_redraw_policy baseState rfl rfl

/-- C7: on every repaint, the due-count badge is drawn if and only if the
count is positive and `show_due` is enabled; otherwise only the base icon
is set, with no badge. -/
theorem badge_drawn_iff_positive_and_enabled (showDue : Bool) (fontSize : PyValue) (n : Nat) :
    ((setSystemTrayIcon showDue fontSize n).badge.isSome = true ↔ 0 < n ∧ showDue = true) ∧
    (¬(0 < n ∧ showDue = true) → (setSystemTrayIcon showDue fontSize n).badge = none) ∧
    (0 < n → showDue = true →
      (setSystemTrayIcon showDue fontSize n).badge = some (formatNumber n)) := by
  by_cases hn : 0 < n <;> cases showDue <;>
    simp [setSystemTrayIcon, getCardsDueDisplayNumber, hn]

/-- C7 witness: the spec scenarios — count 7 with `show_due` on draws the
badge "7"; count 50 with `show_due` off and count 0 with `show_due` on draw
no badge. -/
theorem badge_drawn_iff_positive_and_enabled_witness :
    (setSystemTrayIcon true (PyValue.pyInt 16) 7).badge = some "7" ∧
    (setSystemTrayIcon false (PyValue.pyInt 16) 50).badge = none ∧
    (setSystemTrayIcon true (PyValue.pyInt 16) 0).badge = none :=
  ⟨by
    have h :=
      (badge_drawn_iff_positive_and_enabled true (PyValue.pyInt 16) 7).2.2 (by decide) rfl
    rw [h]; rfl,
   (badge_drawn_iff_positive_and_enabled false (PyValue.pyInt 16) 50).2.1 (by decide),
   (badge_drawn_iff_positive_and_enabled true (PyValue.pyInt 16) 0).2.1 (by decide)⟩

/-- C2: a tray activation with the primary-click (`Trigger`) reason shows
all windows when Anki is unfocused, or some visible window is minimized, or
the coordinator is minimized to tray; otherwise it hides all windows,
except that on `sys.platform` starting with "win32" nothing happens; and an
activation with any other reason does nothing. -/
theorem onActivated_policy (s : TrayState) (reason : ActivationReason)
    (hr : reason ≠ ActivationReason.Trigger) :
    onActivated s reason = s ∧
    ((s.isAnkiFocused = false ∨ anyWindowMinimized s = true ∨ s.isMinimizedToTray = true) →
      onActivated s ActivationReason.Trigger = showAll s) ∧
    (s.isAnkiFocused = true → anyWindowMinimized s = false → s.isMinimizedToTray = false →
      (pyStartsWith s.platform "win32" = false →
        onActivated s ActivationReason.Trigger = hideAll s) ∧
      (pyStartsWith s.platform "win32" = true →
        onActivated s ActivationReason.Trigger = s)) := by
  refine ⟨by simp [onActivated, hr], ?_, ?_⟩
  · rintro (h | h | h) <;> simp [onActivated, h]
  · intro h1 h2 h3
    refine ⟨fun h4 => ?_, fun h4 => ?_⟩ <;> simp [onActivated, h1, h2, h3, h4]

/-- C2 witness: the policy instantiated with a non-primary reason at the
baseline state, whose side conditions (focused, nothing minimized, not
minimized to tray, platform "linux") hold concretely. -/
theorem onActivated_policy_witness :
    onActivated baseState ActivationReason.Context = baseState ∧
    ((baseState.isAnkiFocused = false ∨ anyWindowMinimized baseState = true ∨
        baseState.isMinimizedToTray = true) →
      onActivated baseState ActivationReason.Trigger = showAll baseState) ∧
    (baseState.isAnkiFocused = true → anyWindowMinimized baseState = false →
      baseState.isMinimizedToTray = false →
      (pyStartsWith baseState.platform "win32" = false →
        onActivated baseState ActivationReason.Trigger = hideAll baseState) ∧
      (pyStartsWith baseState.platform "win32" = true →
        onActivated baseState ActivationReason.Trigger = baseState)) :=
  onActivated_policy baseState ActivationReason.Context (by decide)

/-- C6: `showAll` restores exactly the previously snapshotted hidden windows
when the minimized-to-tray flag is set, and otherwise restores the windows
currently visible, where the visible windows are exactly the non-hidden
top-level windows that have child widgets. -/
theorem showAll_snapshot_or_visible (s : TrayState)
    (hflag : s.isMinimizedToTray = true) :
    showAll s =
      { s with windows := showWindows s.explicitlyHiddenWindows s.windows
               isMinimizedToTray := false } ∧
    (∀ t : TrayState, t.isMinimizedToTray = false →
      showAll t =
        { t with windows := showWindows (wids (visibleWindows t.windows)) t.windows
                 isMinimizedToTray := false }) ∧
    (∀ w : Window, ∀ ws : List Window,
      w ∈ visibleWindows ws ↔
        w ∈ ws ∧ w.isWindow = true ∧ w.hidden = false ∧ w.hasChildren = true) := by
  refine ⟨by simp [showAll, hflag], fun t ht => by simp [showAll, ht], fun w ws => ?_⟩
  simp [visibleWindows, List.mem_filter, Window.visibleTopLevel, and_assoc]

/-- C6 witness: instantiated at a state that is minimized to tray with
snapshot `[1]`, together with the visible-window characterization evaluated
on the example window list. -/
theorem showAll_snapshot_or_visible_witness :
    showAll { baseState with isMinimizedToTray := true
                             explicitlyHiddenWindows := [1]
                             windows := [w1, w2, w3] } =
      { baseState with
          isMinimizedToTray := false
          explicitlyHiddenWindows := [1]
          windows := showWindows [1] [w1, w2, w3] } ∧
    (∀ t : TrayState, t.isMinimizedToTray = false →
      showAll t =
        { t with windows := showWindows (wids (visibleWindows t.windows)) t.windows
                 isMinimizedToTray := false }) ∧
    (∀ w : Window, ∀ ws : List Window,
      w ∈ visibleWindows ws ↔
        w ∈ ws ∧ w.isWindow = true ∧ w.hidden = false ∧ w.hasChildren = true) :=
  showAll_snapshot_or_visible
    { baseState with isMinimizedToTray := true
                     explicitlyHiddenWindows := [1]
                     windows := [w1, w2, w3] } rfl

/-- C1: the exit action delegates every close to the original close
behavior (`onExit` sets the flag and the wrapped handler then delegates);
a close event delivered while the flag is unset hides all windows and is
ignored; and over any sequence of close events starting from the configured
state, the application terminates exactly when an exit-action close occurs. -/
theorem close_terminates_iff_exit (s : TrayState) (evs : List CloseSource)
    (h : s.closeEventFromAction = false) :
    (onExit s).2 = CloseOutcome.delegated ∧
    mwCloseEvent s = (hideAll s, CloseOutcome.hiddenAndIgnored) ∧
    (runCloses s evs = true ↔ CloseSource.fromExitAction ∈ evs) := by
  refine ⟨rfl, by simp [mwCloseEvent, h], ?_⟩
  induction evs generalizing s with
  | nil => simp [runCloses]
  | cons src rest ih =>
    cases src with
    | fromExitAction =>
      simp [runCloses, deliverClose, onExit, mwCloseEvent]
    | fromXButton =>
      have h' : (hideAll s).closeEventFromAction = false := h
      simp [runCloses, deliverClose, mwCloseEvent, h, ih (hideAll s) h']

/-- C1 witness: from the baseline state, the trace "X-button close, then
exit-action close" terminates, as the trace contains an exit action. -/
theorem close_terminates_iff_exit_witness :
    (onExit baseState).2 = CloseOutcome.delegated ∧
    mwCloseEvent baseState = (hideAll baseState, CloseOutcome.hiddenAndIgnored) ∧
    (runCloses baseState [CloseSource.fromXButton, CloseSource.fromExitAction] = true ↔
      CloseSource.fromExitAction ∈ [CloseSource.fromXButton, CloseSource.fromExitAction]) :=
  close_terminates_iff_exit baseState
    [CloseSource.fromXButton, CloseSource.fromExitAction] rfl

/-- C8 counterexample: with `show_due` and `due_font_size` present but
`hide_on_startup` absent, `__init__` does not complete: line 43 subscripts
the configuration dict without a guard and raises `KeyError`. -/
theorem init_raises_without_hide_on_startup :
    ankiSystemTrayInit "linux"
        [("show_due", PyValue.pyBool true), ("due_font_size", PyValue.pyInt 16)] [] [] =
      Except.error "KeyError: hide_on_startup" := rfl

/-- C8 amended: initialization falls back to the class-level defaults
`show_due = true` and `due_font_size = 16` when those keys are absent and
completes whenever `hide_on_startup` is present; but when `hide_on_startup`
is absent it raises `KeyError` instead of completing. -/
theorem init_defaults_amended (platform : String) (cfg : List (String × PyValue))
    (windows : List Window) (deck : List DeckNode) :
    (configGet cfg "hide_on_startup" = none →
      ankiSystemTrayInit platform cfg windows deck =
        Except.error "KeyError: hide_on_startup") ∧
    (∀ v, configGet cfg "hide_on_startup" = some v →
      ∃ s : TrayState, ankiSystemTrayInit platform cfg windows deck = Except.ok s ∧
        (configGet cfg "show_due" = none → s.showDueAmount = true) ∧
        (configGet cfg "due_font_size" = none → s.dueFontSize = PyValue.pyInt 16)) := by
  constructor
  · intro h
    simp [ankiSystemTrayInit, h]
  · intro v hv
    simp only [ankiSystemTrayInit, hv]
    refine ⟨_, rfl, ?_, ?_⟩
    · intro hs
      cases hpt : pyTruthy v <;>
        simp [hpt, hideAll, createSystemTrayIcon, hs]
    · intro hf
      cases hpt : pyTruthy v <;>
        simp [hpt, hideAll, createSystemTrayIcon, hf]

/-- C8 witness for the amended claim: the error case at the empty
configuration and the fallback case at a configuration carrying only
`hide_on_startup`. -/
theorem init_defaults_amended_witness :
    (ankiSystemTrayInit "linux" [] [] [] = Except.error "KeyError: hide_on_startup") ∧
    (∃ s : TrayState,
      ankiSystemTrayInit "linux" [("hide_on_startup", PyValue.pyBool false)] [] [] =
        Except.ok s ∧
      (configGet [("hide_on_startup", PyValue.pyBool false)] "show_due" = none →
        s.showDueAmount = true) ∧
      (configGet [("hide_on_startup", PyValue.pyBool false)] "due_font_size" = none →
        s.dueFontSize = PyValue.pyInt 16)) :=
  ⟨(init_defaults_amended "linux" [] [] []).1 rfl,
   (init_defaults_amended "linux" [("hide_on_startup", PyValue.pyBool false)] [] []).2
     (PyValue.pyBool false) rfl⟩

/-- C10 counterexample: initializing with an initial due-count of 5 paints
the tray icon with 5 (badge "5") while `_displayedNumberOfCardsDue` keeps
its class-level default 0, so immediately after the icon is first created
the cached snapshot differs from the count last painted. -/
theorem init_cache_differs_from_painted :
    (ankiSystemTrayInit "linux" [("hide_on_startup", PyValue.pyBool false)] []
        [{ new_count := 5, learn_count := 0, review_count := 0 }]).map
      (fun s => (s.displayedNumberOfCardsDue, s.trayIconImage.paintedCount,
                 s.trayIconImage.badge)) =
      Except.ok (0, 5, some "5") := rfl

/-- C10 amended: the cached due-count snapshot equals the count last painted
onto the tray icon at every point after the first `updateSystemTrayIcon`
redraw: every update call — forced or not, from any state — either leaves
the state completely unchanged or establishes the equality (a repaint
stores the very count it paints), and it preserves the equality once it
holds; but immediately after the icon is first created at initialization
the cache is 0 regardless of the painted count. -/
theorem updateTrayIcon_cache_invariant (s : TrayState) (force : Bool)
    (h : s.displayedNumberOfCardsDue = s.trayIconImage.paintedCount) :
    (updateSystemTrayIcon s force).displayedNumberOfCardsDue =
      (updateSystemTrayIcon s force).trayIconImage.paintedCount ∧
    ∀ t : TrayState, ∀ f : Bool,
      updateSystemTrayIcon t f = t ∨
      (updateSystemTrayIcon t f).displayedNumberOfCardsDue =
        (updateSystemTrayIcon t f).trayIconImage.paintedCount := by
  constructor
  · simp only [updateSystemTrayIcon]
    split
    · simp [setSystemTrayIcon]
    · exact h
  · intro t f
    simp only [updateSystemTrayIcon]
    split
    · exact Or.inr (by simp [setSystemTrayIcon])
    · exact Or.inl rfl

/-- C10 witness for the amended claim: instantiated at the baseline state,
where the cache 0 equals the painted count 0. -/
theorem updateTrayIcon_cache_invariant_witness :
    (updateSystemTrayIcon baseState false).displayedNumberOfCardsDue =
      (updateSystemTrayIcon baseState false).trayIconImage.paintedCount ∧
    ∀ t : TrayState, ∀ f : Bool,
      updateSystemTrayIcon t f = t ∨
      (updateSystemTrayIcon t f).displayedNumberOfCardsDue =
        (updateSystemTrayIcon t f).trayIconImage.paintedCount :=
  updateTrayIcon_cache_invariant baseState false rfl

/-- With distinct window ids, a window's id occurs among the ids of the
visible-window snapshot exactly when that window itself is visible. -/
lemma wid_mem_visible_iff {ws : List Window} (hnd : (wids ws).Nodup) {w : Window}
    (hw : w ∈ ws) :
    w.wid ∈ wids (visibleWindows ws) ↔ w.visibleTopLevel = true := by
  constructor
  · intro h
    rcases List.mem_map.mp h with ⟨v, hv, hvw⟩
    rcases List.mem_filter.mp hv with ⟨hvmem, hvp⟩
    have heq : v = w := List.inj_on_of_nodup_map hnd hvmem hw hvw
    rwa [heq] at hvp
  · intro h
    exact List.mem_map.mpr ⟨w, List.mem_filter.mpr ⟨hw, h⟩, rfl⟩

/-- C3: `hideAll` immediately followed by `showAll` restores exactly the
windows snapshotted by `hideAll` — `showAll` replays the stored snapshot,
never a recomputed set — bringing each snapshotted window back to visible
(with previously minimized windows un-minimized via `showNormal`), leaving
every non-snapshotted window untouched and the minimized-to-tray flag
false. -/
theorem hideAll_showAll_roundtrip (s : TrayState)
    (hnd : (wids s.windows).Nodup)
    (hlive : ∀ w ∈ s.windows, w.deleted = false) :
    (hideAll s).explicitlyHiddenWindows = wids (visibleWindows s.windows) ∧
    (showAll (hideAll s)).isMinimizedToTray = false ∧
    (showAll (hideAll s)).windows =
      s.windows.map fun w =>
        if w.visibleTopLevel then { w with hidden := false, minimized := false }
        else w := by
  refine ⟨rfl, rfl, ?_⟩
  have h1 : (showAll (hideAll s)).windows =
      (s.windows.map fun w =>
        if w.wid ∈ wids (visibleWindows s.windows) then { w with hidden := true }
        else w).map
        (fun w => if w.wid ∈ wids (visibleWindows s.windows) then showWindowStep w
          else w) := rfl
  have key : ∀ w ∈ s.windows,
      (fun w => if w.wid ∈ wids (visibleWindows s.windows) then showWindowStep w else w)
        (if w.wid ∈ wids (visibleWindows s.windows) then { w with hidden := true } else w)
      = if w.visibleTopLevel then { w with hidden := false, minimized := false }
        else w := by
    intro w hw
    by_cases hv : w.visibleTopLevel = true
    · have hmem : w.wid ∈ wids (visibleWindows s.windows) :=
        (wid_mem_visible_iff hnd hw).mpr hv
      have hdel := hlive w hw
      cases hm : w.minimized <;>
        simp [hmem, hv, showWindowStep, hdel, hm]
    · have hmem : w.wid ∉ wids (visibleWindows s.windows) := fun hmem =>
        hv ((wid_mem_visible_iff hnd hw).mp hmem)
      simp [hmem, hv]
  rw [h1, List.map_map]
  exact List.map_congr_left key

/-- C3 witness: the roundtrip instantiated on the example window list
(`w1` visible and minimized, `w2` already hidden, `w3` childless): `w1`
alone is snapshotted, and it comes back visible and un-minimized while `w2`
and `w3` are untouched. -/
theorem hideAll_showAll_roundtrip_witness :
    (hideAll { baseState with windows := [w1, w2, w3] }).explicitlyHiddenWindows =
      wids (visibleWindows [w1, w2, w3]) ∧
    (showAll (hideAll { baseState with windows := [w1, w2, w3] })).isMinimizedToTray =
      false ∧
    (showAll (hideAll { baseState with windows := [w1, w2, w3] })).windows =
      [w1, w2, w3].map fun w =>
        if w.visibleTopLevel then { w with hidden := false, minimized := false }
        else w :=
  hideAll_showAll_roundtrip { baseState with windows := [w1, w2, w3] }
    (by decide) (by decide)
